import Mathlib

/-!
Shallow embedding of the casio-watch-notifier stock poller (`src/index.js`).
The source file holds two revisions of the same program separated by a
document marker: revision 1 (lines 1-271, keyword classifier, no
re-entrancy guard) and revision 2 (lines 272-572, cheerio classifier,
`isChecking` guard).  Definitions below are translated from that source;
`V1` and `V2` namespaces hold the per-revision functions that differ.
-/

/-- Model of the JavaScript `String.prototype.startsWith` on character
lists: used only as a helper for `strHasSub`. -/
def strStartsWith : List Char → List Char → Bool
  | _, [] => true
  | [], _ :: _ => false
  | a :: as, b :: bs => a == b && strStartsWith as bs

/-- Substring containment on character lists, the semantics of
JavaScript `String.prototype.includes`. -/
def strHasSub : List Char → List Char → Bool
  | [], pat => pat.isEmpty
  | c :: t, pat => strStartsWith (c :: t) pat || strHasSub t pat

/-- Model of JavaScript `haystack.includes(pat)` on Lean strings. -/
def jsIncludes (s pat : String) : Bool := strHasSub s.toList pat.toList

/-- Model of JavaScript `String.prototype.toLowerCase` (ASCII case fold,
which is all the keyword lists in the source need). -/
def jsToLower (s : String) : String := String.mk (s.toList.map Char.toLower)

/-- Model of JavaScript `String.prototype.trim`: strip leading and
trailing whitespace. -/
def jsTrim (s : String) : String :=
  String.mk (((s.toList.dropWhile Char.isWhitespace).reverse.dropWhile
      Char.isWhitespace).reverse)

namespace V1

/-- The `inStockKeywords` array of `checkStockFromHTML`, revision 1
(src/index.js lines 124-126). -/
def inStockKeywords : List String :=
  ["add to cart", "add to bag", "buy now", "in stock", "available", "addtocart"]

/-- The `outOfStockKeywords` array of `checkStockFromHTML`, revision 1
(src/index.js lines 127-129). -/
def outOfStockKeywords : List String :=
  ["out of stock", "sold out", "unavailable", "notify when available",
   "out-of-stock", "soldout", "preorder", "pre-order"]

/-- The `for (const word of keywords) if (lowerHtml.includes(word)) return`
loop of revision 1: scans the list in order and stops at the first phrase
contained in `lowerHtml`. -/
def findKeyword : List String → String → Bool
  | [], _ => false
  | w :: rest, lowerHtml =>
    if jsIncludes lowerHtml w then true else findKeyword rest lowerHtml

/-- `checkStockFromHTML`, revision 1 (src/index.js lines 122-147):
lower-case the markup, scan the out-of-stock list first (a match returns
`false` = sold out), then the in-stock list (a match returns `true` =
available), and default to `false` when neither list matches. -/
def checkStockFromHTML (html : String) : Bool :=
  let lowerHtml := jsToLower html
  if findKeyword outOfStockKeywords lowerHtml then false
  else if findKeyword inStockKeywords lowerHtml then true
  else false

end V1

/-- The notification-deciding block of `checkStock` (src/index.js lines
102-111 in revision 1, 392-401 in revision 2, identical in both): given
the stored `lastStockStatus` string and the classifier output `inStock`,
return the new `lastStockStatus` and whether `sendStockNotification` was
invoked this cycle. -/
def pollStep (lastStockStatus : String) (inStock : Bool) : String × Bool :=
  if inStock then
    if lastStockStatus ≠ "available" then ("available", true)
    else (lastStockStatus, false)
  else ("sold_out", false)

/-- Iterate `pollStep` over a list of classifier outputs, returning the
final `lastStockStatus` and the per-cycle notification flags in order. -/
def runPoller (s : String) : List Bool → String × List Bool
  | [] => (s, [])
  | c :: cs =>
    let step := pollStep s c
    let rest := runPoller step.1 cs
    (rest.1, step.2 :: rest.2)

/-- The `html.length > 5 * 1024 * 1024` ceiling of `checkStock`
(src/index.js lines 95 and 385). -/
def MAX_HTML_BYTES : Nat := 5 * 1024 * 1024

/-- Number of body characters already buffered in memory at the moment
the size check on src/index.js line 95 / 385 runs.  The source obtains
the body with `const html = await response.text()`, which resolves only
after the entire body has been received and buffered, so the buffered
amount is the full body length — the check is post-hoc, not an
incremental bound on the read. -/
def bytesBufferedAtSizeCheck (bodyLen : Nat) : Nat := bodyLen

/-- Errors a poll cycle can end in, the `throw` sites and fetch
rejections of `checkStock` (src/index.js lines 88-97 / 380-387 and the
abort timer on lines 74-75 / 366-367). -/
inductive StockError
  | abortError
  | httpStatus (code : Nat)
  | tooLarge
  | network (msg : String)
deriving DecidableEq

/-- Outcome of the awaited `fetch(...)` call: aborted by the 15 s timer,
rejected with a network error, or resolved with a status code and a
fully-read body. -/
inductive FetchOutcome
  | aborted
  | netError (msg : String)
  | response (status : Nat) (body : String)
deriving DecidableEq

/-- JavaScript `response.ok`: status in the range 200-299. -/
def responseOk (status : Nat) : Bool := 200 ≤ status && status ≤ 299

/-- The `try` block of `checkStock` (src/index.js lines 71-111 /
363-401), parameterised by the classifier so that independence from it
can be stated: an aborted fetch yields `abortError`; a network rejection
yields `network`; `!response.ok` throws `httpStatus`; a body longer than
5 MB throws `tooLarge`; otherwise the classifier runs and `pollStep`
updates the state.  `Except.error` is the exception leaving the `try`
block. -/
def checkStockTryWith (classify : String → Bool) (lastStockStatus : String)
    (r : FetchOutcome) : Except StockError (String × Bool) :=
  match r with
  | FetchOutcome.aborted => Except.error StockError.abortError
  | FetchOutcome.netError m => Except.error (StockError.network m)
  | FetchOutcome.response status body =>
    if responseOk status = false then Except.error (StockError.httpStatus status)
    else if body.length > MAX_HTML_BYTES then Except.error StockError.tooLarge
    else Except.ok (pollStep lastStockStatus (classify body))

/-- The whole of `checkStock` including its `catch` block (src/index.js
lines 112-118 / 402-410): every error is caught and only logged, so the
function always returns, with `lastStockStatus` unchanged and no
notification sent on the error path. -/
def checkStockWith (classify : String → Bool) (lastStockStatus : String)
    (r : FetchOutcome) : String × Bool :=
  match checkStockTryWith classify lastStockStatus r with
  | Except.ok res => res
  | Except.error _ => (lastStockStatus, false)

/-- `checkStock` of revision 1, instantiated with that revision's
keyword classifier. -/
def checkStock (lastStockStatus : String) (r : FetchOutcome) : String × Bool :=
  checkStockWith V1.checkStockFromHTML lastStockStatus r

/-- A DOM element as cheerio exposes it to revision 2's
`checkStockFromHTML`: tag name, class list, the `name` attribute, the
presence of the `disabled` attribute, and the text content. -/
structure DomElement where
  tag : String
  classes : List String
  nameAttr : Option String
  disabledAttr : Bool
  text : String
deriving DecidableEq

namespace V2

/-- The selector `.product-form__submit, button[name="add"],
button:contains("Add to cart")` of src/index.js lines 322-324, as a
predicate on one element: class match, or a button named `add`, or a
button whose text contains `Add to cart` (jQuery `:contains` is
case-sensitive). -/
def selectorMatches (e : DomElement) : Bool :=
  e.classes.contains "product-form__submit"
    || (e.tag == "button" && e.nameAttr == some "add")
    || (e.tag == "button" && jsIncludes e.text "Add to cart")

/-- The cheerio selection `addToCartButton`: all elements of the parsed
document matching the selector, in document order. -/
def selection (doc : List DomElement) : List DomElement :=
  doc.filter selectorMatches

/-- `addToCartButton.text().toLowerCase().trim()` (src/index.js line
331): cheerio `.text()` concatenates the text of every element of the
selection. -/
def buttonTextOf (sel : List DomElement) : String :=
  jsTrim (jsToLower (String.join (sel.map DomElement.text)))

/-- `addToCartButton.is(":disabled") || addToCartButton.attr("disabled")
!== undefined` (src/index.js lines 332-334): some element of the
selection carries the `disabled` attribute. -/
def isDisabledOf (sel : List DomElement) : Bool :=
  sel.any fun e => e.disabledAttr

/-- The body of revision 2's `checkStockFromHTML` after a successful
`cheerio.load` (src/index.js lines 319-344): no selector match means
sold out; a disabled control or button text containing `sold out` means
sold out; otherwise available. -/
def classifyDoc (doc : List DomElement) : Bool :=
  let addToCartButton := selection doc
  if addToCartButton.length == 0 then false
  else if isDisabledOf addToCartButton
      || jsIncludes (buttonTextOf addToCartButton) "sold out" then false
  else true

/-- `checkStockFromHTML`, revision 2 (src/index.js lines 317-349): the
whole body runs in a `try` whose `catch` returns `false`, so a parse
exception from `cheerio.load` classifies as sold out instead of
propagating.  The argument is the outcome of the parse. -/
def checkStockFromHTML (parsed : Except String (List DomElement)) : Bool :=
  match parsed with
  | Except.ok doc => classifyDoc doc
  | Except.error _ => false

end V2

/-- Parsed form of the markup `<button disabled>Sold Out</button>` from
the spec's structured-strategy example. -/
def docDisabledSoldOut : List DomElement :=
  [⟨"button", [], none, true, "Sold Out"⟩]

/-- Parsed form of the markup
`<button class="product-form__submit">Add to Cart</button>` from the
spec's structured-strategy example. -/
def docActiveAddToCart : List DomElement :=
  [⟨"button", ["product-form__submit"], none, false, "Add to Cart"⟩]

/-- The module-level mutable bindings shared by the express routes and
the poller (src/index.js lines 29-30 / 306-307): `lastStockStatus` and
the rate-limit timestamp `lastHealthCheck`. -/
structure ServerState where
  lastStockStatus : String
  lastHealthCheck : Int
deriving DecidableEq

/-- State-threaded form of revision 1's `checkStockFromHTML`: the source
body reads only its argument and locals (its only effect is
`console.log`), so the global state passes through untouched. -/
def checkStockFromHTMLRun (g : ServerState) (html : String) :
    ServerState × Bool :=
  (g, V1.checkStockFromHTML html)

/-- State-threaded form of revision 2's `checkStockFromHTML`: likewise
it reads no module-level mutable binding. -/
def checkStockFromHTMLRun2 (g : ServerState) (parsed : Except String (List DomElement)) :
    ServerState × Bool :=
  (g, V2.checkStockFromHTML parsed)

/-- Responses of the health endpoint (`app.get("/")` in revision 1,
lines 42-66; `app.get("/healthz")` in revision 2, lines 474-489; the
same control flow in both). -/
inductive HealthResponse
  | tooManyRequests
  | unauthorized
  | ok (stockStatus : String)
deriving DecidableEq

/-- The health endpoint handler: first the fixed-window rate limit
(reject and leave state untouched when fewer than 30000 ms have passed
since `lastHealthCheck`), then — after `lastHealthCheck = now` has
already been assigned — the shared-secret check of `req.query.key`, then
the status payload.  `key` is `none` when the query parameter is
missing. -/
def healthz (secret : String) (st : ServerState) (now : Int)
    (key : Option String) : ServerState × HealthResponse :=
  if now - st.lastHealthCheck < 30000 then (st, HealthResponse.tooManyRequests)
  else
    let st2 : ServerState := { st with lastHealthCheck := now }
    if key ≠ some secret then (st2, HealthResponse.unauthorized)
    else (st2, HealthResponse.ok st2.lastStockStatus)

/-- Observable events of one poll cycle, in program order: an assignment
to `lastStockStatus`, the awaited `bot.telegram.sendMessage` inside
`sendStockNotification`, and the `console.error` in its `catch`. -/
inductive PollEvent
  | setStatus (newStatus : String)
  | sendMessage
  | logSendFailure
deriving DecidableEq

/-- Event trace of `sendStockNotification` (src/index.js lines 150-162 /
436-451) given whether the Telegram send rejects: the send is attempted,
a failure is caught and logged inside the function, and in either case
the function returns normally — the trace is total, no error escapes. -/
def sendStockNotificationEvents (sendFails : Bool) : List PollEvent :=
  if sendFails then [PollEvent.sendMessage, PollEvent.logSendFailure]
  else [PollEvent.sendMessage]

/-- Event trace of the `inStock` branch of `checkStock` (src/index.js
lines 102-111 / 392-401): on a transition into available the assignment
`lastStockStatus = "available"` precedes `await sendStockNotification()`;
when already available nothing happens; when not in stock the status is
set to `sold_out`. -/
def checkStockEvents (lastStockStatus : String) (inStock : Bool)
    (sendFails : Bool) : List PollEvent :=
  if inStock then
    if lastStockStatus ≠ "available" then
      PollEvent.setStatus "available" :: sendStockNotificationEvents sendFails
    else []
  else [PollEvent.setStatus "sold_out"]

/-- Replay the `lastStockStatus` assignments of a trace. -/
def applyEvents (s : String) : List PollEvent → String
  | [] => s
  | PollEvent.setStatus n :: rest => applyEvents n rest
  | PollEvent.sendMessage :: rest => applyEvents s rest
  | PollEvent.logSendFailure :: rest => applyEvents s rest

/-- Whether an event is the Telegram send attempt. -/
def isSendEvent : PollEvent → Bool
  | PollEvent.sendMessage => true
  | _ => false

/-- Number of Telegram send attempts in a trace. -/
def countSendAttempts (evs : List PollEvent) : Nat :=
  (evs.filter isSendEvent).length

/-- Concurrency skeleton of revision 2's poller: the `isChecking` flag
(src/index.js line 308) and the number of fetches started but not yet
returned. -/
structure PollerV2State where
  isChecking : Bool
  activeFetches : Nat
deriving DecidableEq

namespace V2

/-- A timer tick running revision 2's `checkStock` (src/index.js lines
354-360): if `isChecking` is set the tick returns at once — dropped, not
queued — starting nothing; otherwise it sets the flag and starts a
fetch. -/
def tick (st : PollerV2State) : PollerV2State :=
  if st.isChecking then st
  else { isChecking := true, activeFetches := st.activeFetches + 1 }

/-- Completion of the running cycle: its fetch has returned and the
`finally` block (src/index.js lines 408-410) clears `isChecking`. -/
def cycleEnd (st : PollerV2State) : PollerV2State :=
  { isChecking := false, activeFetches := st.activeFetches - 1 }

end V2

/-- States of revision 2's poller reachable from process start
(`isChecking = false`, nothing in flight) by timer ticks and completions
of a running cycle. -/
inductive ReachableV2 : PollerV2State → Prop
  | init : ReachableV2 ⟨false, 0⟩
  | tick {st : PollerV2State} : ReachableV2 st → ReachableV2 (V2.tick st)
  | cycleEnd {st : PollerV2State} : ReachableV2 st → st.isChecking = true →
      ReachableV2 (V2.cycleEnd st)

namespace V1

/-- A timer tick running revision 1's `checkStock` (src/index.js lines
69-119): the function has no re-entrancy guard, so every tick
unconditionally proceeds to `fetch`, one more fetch in flight whatever
is already running.  The state is the number of fetches in flight. -/
def tick (activeFetches : Nat) : Nat := activeFetches + 1

/-- A cycle of revision 1 finishing: its fetch returns. -/
def cycleEnd (activeFetches : Nat) : Nat := activeFetches - 1

end V1

theorem findKeyword_eq_true_iff {ks : List String} {l : String} :
    V1.findKeyword ks l = true ↔ ∃ w ∈ ks, jsIncludes l w = true := by
  induction ks with
  | nil => simp [V1.findKeyword]
  | cons w rest ih =>
    cases hw : jsIncludes l w <;> simp [V1.findKeyword, hw, ih]

theorem findKeyword_eq_false {ks : List String} {l : String}
    (h : ∀ w ∈ ks, jsIncludes l w = false) : V1.findKeyword ks l = false := by
  induction ks with
  | nil => rfl
  | cons w rest ih =>
    have hw : jsIncludes l w = false := h w (by simp)
    simp only [V1.findKeyword, hw]
    exact ih fun x hx => h x (by simp [hx])

/-- C1: a notification fires in a poll cycle with classification `c` and
stored status `s` exactly when `c` is available and `s` is not already
`"available"`; feeding the classification sequence sold-out, available,
available, sold-out, available to the poller from its initial state
fires notifications exactly at positions 2 and 5, two in total. -/
theorem c1_notify_iff_transition :
    (∀ (s : String) (c : Bool),
      (pollStep s c).2 = true ↔ (c = true ∧ s ≠ "available"))
    ∧ (runPoller "unknown" [false, true, true, false, true]).2
        = [false, true, false, false, true]
    ∧ (runPoller "unknown" [false, true, true, false, true]).2.count true = 2 := by
  refine ⟨?_, by decide, by decide⟩
  intro s c
  cases c <;> by_cases h : s = "available" <;> simp [pollStep, h]

theorem c1_witness : (pollStep "sold_out" true).2 = true :=
  (c1_notify_iff_transition.1 "sold_out" true).mpr ⟨rfl, by decide⟩

/-- C2 (amended): in revision 2, whose `checkStock` starts with the
`isChecking` guard, every reachable poller state has at most one fetch
in flight, and a timer tick arriving while a cycle is running leaves the
state unchanged (dropped, not queued). -/
theorem c2_guarded_single_cycle :
    ∀ st : PollerV2State, ReachableV2 st →
      st.activeFetches ≤ 1 ∧ (st.isChecking = true → V2.tick st = st) := by
  have hinv : ∀ {st : PollerV2State}, ReachableV2 st →
      st.activeFetches = (if st.isChecking then 1 else 0) := by
    intro st h
    induction h with
    | init => rfl
    | @tick st1 _ ih =>
      by_cases hc : st1.isChecking = true
      · simpa [V2.tick, hc] using ih
      · have h0 : st1.activeFetches = 0 := by simpa [hc] using ih
        simp [V2.tick, hc, h0]
    | @cycleEnd st1 _ hb ih =>
      have h1 : st1.activeFetches = 1 := by simpa [hb] using ih
      simp [V2.cycleEnd, h1]
  intro st h
  have hi := hinv h
  constructor
  · rw [hi]
    by_cases hc : st.isChecking = true <;> simp [hc]
  · intro hb
    simp [V2.tick, hb]

theorem c2_witness :
    (V2.tick ⟨false, 0⟩).activeFetches ≤ 1
    ∧ ((V2.tick ⟨false, 0⟩).isChecking = true →
        V2.tick (V2.tick ⟨false, 0⟩) = V2.tick ⟨false, 0⟩) :=
  c2_guarded_single_cycle (V2.tick ⟨false, 0⟩)
    (ReachableV2.tick ReachableV2.init)

/-- C2 counterexample: revision 1's `checkStock` has no re-entrancy
guard, so with one fetch already in flight a timer tick is not dropped:
it starts a second concurrent fetch, leaving two in flight. -/
theorem c2_counterexample : V1.tick 1 = 2 ∧ V1.tick 1 ≠ 1 := by decide

/-- C3 counterexample: on a body one character over the 5 MB ceiling,
the whole body — all 5242881 characters, more than the ceiling — has
already been buffered by `await response.text()` when the size check
runs, so the read is not aborted once the ceiling is exceeded. -/
theorem c3_counterexample :
    bytesBufferedAtSizeCheck (MAX_HTML_BYTES + 1) = MAX_HTML_BYTES + 1
    ∧ MAX_HTML_BYTES + 1 > MAX_HTML_BYTES := ⟨rfl, by decide⟩

/-- C3 (amended): a fetched body longer than the 5 MB ceiling makes the
`try` block of `checkStock` throw the too-large error, for any
classifier; the result does not depend on the classifier (the markup is
never passed to it), the caught cycle leaves the state unchanged, but
the size is checked only after the full body was buffered. -/
theorem c3_too_large_error :
    ∀ (f g : String → Bool) (s : String) (status : Nat) (body : String),
      responseOk status = true → body.length > MAX_HTML_BYTES →
      checkStockTryWith f s (FetchOutcome.response status body)
          = Except.error StockError.tooLarge
      ∧ checkStockWith f s (FetchOutcome.response status body) = (s, false)
      ∧ checkStockTryWith f s (FetchOutcome.response status body)
          = checkStockTryWith g s (FetchOutcome.response status body)
      ∧ bytesBufferedAtSizeCheck body.length = body.length := by
  intro f g s status body hok hlen
  have h1 : checkStockTryWith f s (FetchOutcome.response status body)
      = Except.error StockError.tooLarge := by
    simp [checkStockTryWith, hok, hlen]
  have h2 : checkStockTryWith g s (FetchOutcome.response status body)
      = Except.error StockError.tooLarge := by
    simp [checkStockTryWith, hok, hlen]
  refine ⟨h1, ?_, h1.trans h2.symm, rfl⟩
  simp [checkStockWith, h1]

theorem c3_witness :
    checkStockTryWith (fun _ => true) "unknown"
        (FetchOutcome.response 200 (String.mk (List.replicate 5242881 'x')))
      = Except.error StockError.tooLarge
    ∧ checkStockWith (fun _ => true) "unknown"
        (FetchOutcome.response 200 (String.mk (List.replicate 5242881 'x')))
      = ("unknown", false) := by
  have hlen : (String.mk (List.replicate 5242881 'x')).length > MAX_HTML_BYTES := by
    show (List.replicate 5242881 'x').length > MAX_HTML_BYTES
    rw [List.length_replicate]
    decide
  have h := c3_too_large_error (fun _ => true) (fun _ => false) "unknown" 200
    (String.mk (List.replicate 5242881 'x')) (by decide) hlen
  exact ⟨h.1, h.2.1⟩

/-- C4: every poll cycle whose `try` block throws (timeout abort,
network rejection, non-2xx status, too-large body) is caught at the
`checkStock` boundary: the function returns normally with
`lastStockStatus` unchanged and no notification sent, and each listed
failure does produce the corresponding error, whatever the classifier. -/
theorem c4_errors_caught_state_unchanged :
    ∀ (classify : String → Bool) (s : String),
      (∀ (r : FetchOutcome) (e : StockError),
        checkStockTryWith classify s r = Except.error e →
        checkStockWith classify s r = (s, false))
      ∧ checkStockTryWith classify s FetchOutcome.aborted
          = Except.error StockError.abortError
      ∧ (∀ m, checkStockTryWith classify s (FetchOutcome.netError m)
          = Except.error (StockError.network m))
      ∧ (∀ (status : Nat) (body : String), responseOk status = false →
          checkStockTryWith classify s (FetchOutcome.response status body)
            = Except.error (StockError.httpStatus status))
      ∧ (∀ (status : Nat) (body : String), responseOk status = true →
          body.length > MAX_HTML_BYTES →
          checkStockTryWith classify s (FetchOutcome.response status body)
            = Except.error StockError.tooLarge) := by
  intro classify s
  refine ⟨?_, rfl, fun m => rfl, ?_, ?_⟩
  · intro r e h
    unfold checkStockWith
    rw [h]
  · intro status body h
    simp [checkStockTryWith, h]
  · intro status body hok hlen
    simp [checkStockTryWith, hok, hlen]

theorem c4_witness :
    checkStockWith V1.checkStockFromHTML "sold_out" FetchOutcome.aborted
      = ("sold_out", false) :=
  (c4_errors_caught_state_unchanged V1.checkStockFromHTML "sold_out").1
    FetchOutcome.aborted StockError.abortError rfl

/-- C5: markup whose lower-cased form contains some out-of-stock phrase
and some in-stock phrase classifies as sold out under the keyword
strategy, because the out-of-stock list is scanned first. -/
theorem c5_both_lists_sold_out :
    ∀ html : String,
      (∃ w ∈ V1.outOfStockKeywords, jsIncludes (jsToLower html) w = true) →
      (∃ w ∈ V1.inStockKeywords, jsIncludes (jsToLower html) w = true) →
      V1.checkStockFromHTML html = false := by
  intro html hout _hin
  have h1 : V1.findKeyword V1.outOfStockKeywords (jsToLower html) = true :=
    findKeyword_eq_true_iff.mpr hout
  simp [V1.checkStockFromHTML, h1]

theorem c5_witness : V1.checkStockFromHTML "Sold Out! Add to Cart" = false :=
  c5_both_lists_sold_out "Sold Out! Add to Cart"
    ⟨"sold out", by decide, by decide⟩ ⟨"add to cart", by decide, by decide⟩

/-- C6: markup whose lower-cased form contains no phrase from either
keyword list classifies as sold out under the keyword strategy — the
default bias is toward assuming unavailable. -/
theorem c6_no_keywords_sold_out :
    ∀ html : String,
      (∀ w ∈ V1.outOfStockKeywords, jsIncludes (jsToLower html) w = false) →
      (∀ w ∈ V1.inStockKeywords, jsIncludes (jsToLower html) w = false) →
      V1.checkStockFromHTML html = false := by
  intro html hout hin
  have h1 : V1.findKeyword V1.outOfStockKeywords (jsToLower html) = false :=
    findKeyword_eq_false hout
  have h2 : V1.findKeyword V1.inStockKeywords (jsToLower html) = false :=
    findKeyword_eq_false hin
  simp [V1.checkStockFromHTML, h1, h2]

theorem c6_witness : V1.checkStockFromHTML "hello world" = false :=
  c6_no_keywords_sold_out "hello world" (by decide) (by decide)

/-- C7: under the structured strategy, no selector match yields sold
out; a disabled control or button text containing the sold-out phrase
yields sold out; an enabled, phrase-free match yields available; the
parsed forms of `<button disabled>Sold Out</button>` and of the
product-form submit button with text `Add to Cart` classify as sold out
and available respectively; and a parse exception yields sold out
instead of propagating. -/
theorem c7_structured_strategy :
    (∀ doc : List DomElement, V2.selection doc = [] → V2.classifyDoc doc = false)
    ∧ (∀ doc : List DomElement,
        (V2.isDisabledOf (V2.selection doc) = true
          ∨ jsIncludes (V2.buttonTextOf (V2.selection doc)) "sold out" = true) →
        V2.classifyDoc doc = false)
    ∧ (∀ doc : List DomElement, V2.selection doc ≠ [] →
        V2.isDisabledOf (V2.selection doc) = false →
        jsIncludes (V2.buttonTextOf (V2.selection doc)) "sold out" = false →
        V2.classifyDoc doc = true)
    ∧ V2.checkStockFromHTML (Except.ok docDisabledSoldOut) = false
    ∧ V2.checkStockFromHTML (Except.ok docActiveAddToCart) = true
    ∧ (∀ msg : String, V2.checkStockFromHTML (Except.error msg) = false) := by
  refine ⟨?_, ?_, ?_, by decide, by decide, fun msg => rfl⟩
  · intro doc h
    simp [V2.classifyDoc, h]
  · intro doc h
    by_cases hsel : V2.selection doc = []
    · simp [V2.classifyDoc, hsel]
    · rcases h with h | h <;> simp [V2.classifyDoc, hsel, h]
  · intro doc hsel hdis htext
    simp [V2.classifyDoc, hsel, hdis, htext]

theorem c7_witness :
    V2.classifyDoc [] = false ∧ V2.classifyDoc docActiveAddToCart = true :=
  ⟨c7_structured_strategy.1 [] rfl,
   c7_structured_strategy.2.2.1 docActiveAddToCart (by decide) (by decide)
     (by decide)⟩

/-- C8: both classifiers are pure functions of their argument — in the
state-threaded embedding the shared mutable state passes through
unchanged, and a repeated call on identical markup returns the identical
result. -/
theorem c8_classifier_pure :
    ∀ (g : ServerState) (html : String)
      (parsed : Except String (List DomElement)),
      (checkStockFromHTMLRun g html).1 = g
      ∧ (checkStockFromHTMLRun ((checkStockFromHTMLRun g html).1) html).2
          = (checkStockFromHTMLRun g html).2
      ∧ (checkStockFromHTMLRun2 g parsed).1 = g
      ∧ (checkStockFromHTMLRun2 ((checkStockFromHTMLRun2 g parsed).1) parsed).2
          = (checkStockFromHTMLRun2 g parsed).2 :=
  fun _ _ _ => ⟨rfl, rfl, rfl, rfl⟩

/-- C9 counterexample: secret `hunter2`, state fresh at epoch 0.  An
unauthorized request at t=100000 consumes the window; a request at
t=129000 is rejected 429 and does not refresh the window; an authorized
request at t=158000 — 29000 ms after that request, within 30 seconds —
is nevertheless served the status payload, not 429. -/
theorem c9_counterexample :
    (healthz "hunter2" ⟨"unknown", 0⟩ 100000 none).2
        = HealthResponse.unauthorized
    ∧ (healthz "hunter2" (healthz "hunter2" ⟨"unknown", 0⟩ 100000 none).1
        129000 none).2 = HealthResponse.tooManyRequests
    ∧ ((158000 : Int) - 129000 < 30000)
    ∧ (healthz "hunter2"
        (healthz "hunter2" (healthz "hunter2" ⟨"unknown", 0⟩ 100000 none).1
          129000 none).1 158000 (some "hunter2")).2
        = HealthResponse.ok "unknown" := by decide

/-- C9 (amended): on any request that passes the rate-limit window,
`lastHealthCheck` is updated to `now` before the key is validated, so an
unauthorized request still consumes the window, and any request —
authorized or not — arriving within 30 seconds after a request that
itself passed the window receives 429; a request rejected with 429 does
not refresh the window. -/
theorem c9_rate_limit_before_auth :
    ∀ (secret : String) (st : ServerState) (now now2 : Int)
      (key key2 : Option String),
      ¬ now - st.lastHealthCheck < 30000 →
      (healthz secret st now key).1.lastHealthCheck = now
      ∧ (key ≠ some secret →
          (healthz secret st now key).2 = HealthResponse.unauthorized)
      ∧ (now2 - now < 30000 →
          (healthz secret (healthz secret st now key).1 now2 key2).2
            = HealthResponse.tooManyRequests) := by
  intro secret st now now2 key key2 hwin
  have h1 : (healthz secret st now key).1
      = { st with lastHealthCheck := now } := by
    by_cases hk : key = some secret <;> simp [healthz, hwin, hk]
  refine ⟨by rw [h1], ?_, ?_⟩
  · intro hk
    simp [healthz, hwin, hk]
  · intro h2
    rw [h1]
    simp [healthz, h2]

theorem c9_witness :
    (healthz "k" ⟨"unknown", 0⟩ 100000 none).1.lastHealthCheck = 100000
    ∧ (none ≠ some "k" →
        (healthz "k" ⟨"unknown", 0⟩ 100000 none).2
          = HealthResponse.unauthorized)
    ∧ ((115000 : Int) - 100000 < 30000 →
        (healthz "k" (healthz "k" ⟨"unknown", 0⟩ 100000 none).1 115000
          (some "k")).2 = HealthResponse.tooManyRequests) :=
  c9_rate_limit_before_auth "k" ⟨"unknown", 0⟩ 100000 115000 none (some "k")
    (by decide)

/-- C10: on a transition into available, the assignment
`lastStockStatus = "available"` precedes the awaited notification send
in the cycle's event trace; the trace is total even when the Telegram
send fails (the failure is caught and logged inside
`sendStockNotification`), the transition is recorded as available
regardless, and the next poll cycle that still classifies available
attempts no send — the missed notification is never retried. -/
theorem c10_status_set_before_send :
    ∀ (s : String) (sendFails nextSendFails : Bool), s ≠ "available" →
      checkStockEvents s true sendFails
        = PollEvent.setStatus "available" :: sendStockNotificationEvents sendFails
      ∧ applyEvents s (checkStockEvents s true sendFails) = "available"
      ∧ countSendAttempts
          (checkStockEvents (applyEvents s (checkStockEvents s true sendFails))
            true nextSendFails) = 0 := by
  intro s sendFails nextSendFails h
  have he : checkStockEvents s true sendFails
      = PollEvent.setStatus "available" :: sendStockNotificationEvents sendFails := by
    simp [checkStockEvents, h]
  have ha : applyEvents s (checkStockEvents s true sendFails) = "available" := by
    rw [he]
    cases sendFails <;> simp [sendStockNotificationEvents, applyEvents]
  refine ⟨he, ha, ?_⟩
  rw [ha]
  cases nextSendFails <;> simp [checkStockEvents, countSendAttempts]

theorem c10_witness :
    checkStockEvents "sold_out" true true
      = PollEvent.setStatus "available" :: sendStockNotificationEvents true
    ∧ applyEvents "sold_out" (checkStockEvents "sold_out" true true)
      = "available"
    ∧ countSendAttempts
        (checkStockEvents
          (applyEvents "sold_out" (checkStockEvents "sold_out" true true))
          true false) = 0 :=
  c10_status_set_before_send "sold_out" true false (by decide)

